import Mathlib

/-!
Shallow embedding of `src/main.cpp` of mbed-os-example-lorawan.

The application controller is a set of callbacks over process-wide mutable
state (mode flag, LEDs, receive counter, two 30-byte buffers).  Each entry
point is modelled as a pure function from the state and an environment
(the build-time duty-cycle flag and the return values the external LoRaWAN
stack produces during that entry point) to the new state paired with the
externally visible effects (payloads passed to `lorawan.send`, delays of
`ev_queue.call_in(., send_message)`, device-class change requests, and
whether `ev_queue.break_dispatch` was called).  `printf` output is not
modelled.
-/

/-- Status code `LORAWAN_STATUS_OK` of the external stack. -/
def LORAWAN_STATUS_OK : Int := 0

/-- Status code `LORAWAN_STATUS_WOULD_BLOCK` of the external stack; the
source compares a receive result against the literal `-1001` (main.cpp:283). -/
def LORAWAN_STATUS_WOULD_BLOCK : Int := -1001

/-- Status code `LORAWAN_STATUS_CONNECT_IN_PROGRESS` of the external stack;
only its distinctness from `LORAWAN_STATUS_OK` matters to the application. -/
def LORAWAN_STATUS_CONNECT_IN_PROGRESS : Int := -1016

/-- Device classes passed to `lorawan.set_device_class` (`device_class_t`). -/
inductive DeviceClass
  | A
  | B
  | C
deriving DecidableEq, Repr

/-- The mutable application state of main.cpp: the mode flag `is_class_c`
(a `uint8_t`, only ever assigned 0 or 1), the diagnostic counter
`receive_count` (a `uint8_t`, hence arithmetic mod 256), the two indicator
LEDs, and the two 30-byte buffers, each modelled by the text last placed in
it (`""` = zeroed). -/
structure LoraState where
  is_class_c : Nat
  receive_count : Nat
  green_led : Bool
  blue_led : Bool
  tx_buffer : String
  rx_buffer : String
deriving DecidableEq, Repr

/-- Externally visible actions performed by one controller entry point:
`sends` lists the payloads passed to `lorawan.send`, `scheduled` the delays
(ms) of `ev_queue.call_in(., send_message)` calls, `classCalls` the device
classes requested via `lorawan.set_device_class`, and `broke` records a
`ev_queue.break_dispatch()` call. -/
structure Effects where
  sends : List String
  scheduled : List Nat
  classCalls : List DeviceClass
  broke : Bool
deriving DecidableEq, Repr

/-- No externally visible action. -/
def Effects.none : Effects := ⟨[], [], [], false⟩

/-- Concatenation of the effects of two sequentially executed code pieces. -/
def Effects.append (a b : Effects) : Effects :=
  ⟨a.sends ++ b.sends, a.scheduled ++ b.scheduled,
   a.classCalls ++ b.classCalls, a.broke || b.broke⟩

/-- The build-time configuration flag `MBED_CONF_LORA_DUTY_CYCLE_ON` and
the responses of the external stack during one entry point: the return
code of `lorawan.send`, and the return code of `lorawan.receive` together
with the bytes it leaves in `rx_buffer` on success. -/
structure Env where
  duty_cycle_on : Bool
  send_ret : Int
  recv_ret : Int
  recv_data : String
deriving DecidableEq, Repr

/-- `send_message` (main.cpp:200-228): suppressed entirely while
`is_class_c` is truthy; otherwise writes the fixed diagnostic string into
`tx_buffer` and passes it to `lorawan.send`.  On a negative result the
buffer is kept and, exactly when the result is would-block with duty
cycling on and `is_class_c == 0`, one 3-second retry is scheduled; on
success the buffer is zeroed. -/
def send_message (env : Env) (s : LoraState) : LoraState × Effects :=
  if s.is_class_c ≠ 0 then (s, Effects.none)
  else
    let s1 := { s with tx_buffer := "DataFromEndDevice" }
    if env.send_ret < 0 then
      if env.send_ret = LORAWAN_STATUS_WOULD_BLOCK then
        if env.duty_cycle_on = true ∧ s1.is_class_c = 0 then
          (s1, ⟨["DataFromEndDevice"], [3000], [], false⟩)
        else (s1, ⟨["DataFromEndDevice"], [], [], false⟩)
      else (s1, ⟨["DataFromEndDevice"], [], [], false⟩)
    else ({ s1 with tx_buffer := "" }, ⟨["DataFromEndDevice"], [], [], false⟩)

/-- `send_specific_message` (main.cpp:233-269): suppressed entirely while
`is_class_c` is truthy; otherwise writes the caller-supplied payload into
`tx_buffer` and passes it to `lorawan.send`.  On a negative result it
always schedules one 3-second `send_message` retry, and schedules a second
one exactly when the result is would-block with duty cycling on and
`is_class_c == 0`; on success the buffer is zeroed. -/
def send_specific_message (message : String) (env : Env) (s : LoraState) :
    LoraState × Effects :=
  if s.is_class_c ≠ 0 then (s, Effects.none)
  else
    let s1 := { s with tx_buffer := message }
    if env.send_ret < 0 then
      (s1, ⟨[message],
            3000 :: (if env.send_ret = LORAWAN_STATUS_WOULD_BLOCK ∧
                        env.duty_cycle_on = true ∧ s1.is_class_c = 0
                     then [3000] else []),
            [], false⟩)
    else ({ s1 with tx_buffer := "" }, ⟨[message], [], [], false⟩)

/-- `switch_to_class_c` (main.cpp:171-182): requests `CLASS_C` from the
stack (its return code only affects logging), turns the blue LED on and
the green LED off, sets the mode flag, and then calls
`send_specific_message "ClassCSwitch"` — which at that point sees
`is_class_c = 1`. -/
def switch_to_class_c (env : Env) (s : LoraState) : LoraState × Effects :=
  let s1 := { s with blue_led := true, green_led := false, is_class_c := 1 }
  let r := send_specific_message "ClassCSwitch" env s1
  (r.1, Effects.append ⟨[], [], [DeviceClass.C], false⟩ r.2)

/-- `switch_to_class_a` (main.cpp:184-195): requests `CLASS_A`, turns the
blue LED off and the green LED on, clears the mode flag, and announces via
`send_specific_message "ClassAInit"` (the source sends "ClassAInit" here,
not "ClassASwitch"). -/
def switch_to_class_a (env : Env) (s : LoraState) : LoraState × Effects :=
  let s1 := { s with blue_led := false, green_led := true, is_class_c := 0 }
  let r := send_specific_message "ClassAInit" env s1
  (r.1, Effects.append ⟨[], [], [DeviceClass.A], false⟩ r.2)

/-- The C string `received_msg = (char *) &rx_buffer` read after
`lorawan.receive` (main.cpp:296): the bytes the stack delivered when the
return code is non-negative, the untouched buffer contents when the stack
had nothing to read. -/
def receivedMsg (env : Env) (s : LoraState) : String :=
  if 0 ≤ env.recv_ret then env.recv_data else s.rx_buffer

/-- `receive_message` (main.cpp:274-315): always increments the `uint8_t`
receive counter first; returns early (without clearing `rx_buffer`) on a
negative receive code other than `-1001`; otherwise interprets the buffer
as a command string, switching to class C on "ClassCSwitch" and to class A
on "ClassASwitch", and finally zeroes `rx_buffer`. -/
def receive_message (env : Env) (s : LoraState) : LoraState × Effects :=
  let s0 := { s with receive_count := (s.receive_count + 1) % 256 }
  if env.recv_ret < 0 ∧ env.recv_ret ≠ -1001 then (s0, Effects.none)
  else
    let s1 := { s0 with rx_buffer := receivedMsg env s0 }
    let msg := s1.rx_buffer
    let r2 := if msg = "ClassCSwitch" then switch_to_class_c env s1
              else (s1, Effects.none)
    let r3 := if msg = "ClassASwitch" then switch_to_class_a env r2.1
              else (r2.1, Effects.none)
    ({ r3.1 with rx_buffer := "" }, Effects.append r2.2 r3.2)

/-- The `lorawan_event_t` values dispatched by the event handler. -/
inductive LorawanEvent
  | CONNECTED
  | DISCONNECTED
  | TX_DONE
  | TX_TIMEOUT
  | TX_ERROR
  | TX_CRYPTO_ERROR
  | TX_SCHEDULING_ERROR
  | RX_DONE
  | RX_TIMEOUT
  | RX_ERROR
  | JOIN_FAILURE
  | UPLINK_REQUIRED
  | CLASS_CHANGED
deriving DecidableEq, Repr

/-- `lora_event_handler` (main.cpp:320-383).  CONNECTED with duty cycling
on announces the current mode through `send_specific_message`; DISCONNECTED
breaks the dispatch loop; TX_DONE in mode A with duty cycling on sends the
next periodic message (the mode-C receive call is commented out); RX_DONE
dispatches to `receive_message`; every other event only logs. -/
def lora_event_handler (event : LorawanEvent) (env : Env) (s : LoraState) :
    LoraState × Effects :=
  match event with
  | .CONNECTED =>
      if env.duty_cycle_on = true then
        if s.is_class_c = 1 then send_specific_message "ClassCInit" env s
        else send_specific_message "ClassAInit" env s
      else (s, Effects.none)
  | .DISCONNECTED => (s, ⟨[], [], [], true⟩)
  | .TX_DONE =>
      if env.duty_cycle_on = true ∧ s.is_class_c = 1 then (s, Effects.none)
      else if env.duty_cycle_on = true ∧ s.is_class_c = 0 then send_message env s
      else (s, Effects.none)
  | .RX_DONE => receive_message env s
  | _ => (s, Effects.none)

/-- The stack operations `main` can invoke, in the order it invokes them. -/
inductive StackCall
  | init
  | set_confirmed_msg_retries
  | enable_adaptive_datarate
  | connect
  | dispatch_forever
deriving DecidableEq, Repr

/-- `main` (main.cpp:114-169) as a function of the return code of each
stack call: the process exit status paired with the sequence of stack
calls actually made.  Any configuration failure, or a connect result other
than OK / connect-in-progress, returns `-1` immediately; otherwise
`dispatch_forever` runs (it returns only after `break_dispatch`, i.e.
after the DISCONNECTED event) and `main` returns `0`.  (Named `main_run`
because Lean reserves the top-level name `main` for executables.) -/
def main_run (init_ret retries_ret adr_ret connect_ret : Int) :
    Int × List StackCall :=
  if init_ret ≠ LORAWAN_STATUS_OK then (-1, [.init])
  else if retries_ret ≠ LORAWAN_STATUS_OK then
    (-1, [.init, .set_confirmed_msg_retries])
  else if adr_ret ≠ LORAWAN_STATUS_OK then
    (-1, [.init, .set_confirmed_msg_retries, .enable_adaptive_datarate])
  else if connect_ret = LORAWAN_STATUS_OK ∨
          connect_ret = LORAWAN_STATUS_CONNECT_IN_PROGRESS then
    (0, [.init, .set_confirmed_msg_retries, .enable_adaptive_datarate,
         .connect, .dispatch_forever])
  else
    (-1, [.init, .set_confirmed_msg_retries, .enable_adaptive_datarate,
          .connect])

/-- Application state on entry to the event loop: `main` switches the green
LED on at its top (main.cpp:119), the blue LED keeps its power-on default
(off), the mode flag and counter are zero-initialised statics, and both
buffers are zeroed. -/
def initState : LoraState :=
  { is_class_c := 0, receive_count := 0, green_led := true, blue_led := false,
    tx_buffer := "", rx_buffer := "" }

/-- The indicator/mode correspondence of claim C10: the blue LED is on
exactly when the mode flag is C (`is_class_c ≠ 0`) and the green LED is on
exactly when the mode flag is A (`is_class_c = 0`). -/
def ledsOk (s : LoraState) : Prop :=
  (s.blue_led = true ↔ s.is_class_c ≠ 0) ∧
  (s.green_led = true ↔ s.is_class_c = 0)

/-- Claim C1: while the mode flag is C (`is_class_c ≠ 0`), both send
operations return immediately: the state is unchanged and no effect — in
particular no `lorawan.send` call and no scheduled retry — occurs. -/
theorem C1_class_c_suppresses_sends (env : Env) (s : LoraState) (msg : String)
    (h : s.is_class_c ≠ 0) :
    send_message env s = (s, Effects.none) ∧
    send_specific_message msg env s = (s, Effects.none) := by
  constructor <;> simp [send_message, send_specific_message, h]

/-- Witness for C1 at a concrete class-C state. -/
theorem C1_witness :
    ({ initState with is_class_c := 1 } : LoraState).is_class_c ≠ 0 ∧
    send_message ⟨true, 0, 0, ""⟩ { initState with is_class_c := 1 } =
      ({ initState with is_class_c := 1 }, Effects.none) :=
  ⟨by decide,
   (C1_class_c_suppresses_sends ⟨true, 0, 0, ""⟩
      { initState with is_class_c := 1 } "x" (by decide)).1⟩

/-- Counterexample to claim C2 as stated: in mode A (initState), receiving
the downlink "ClassCSwitch" switches the mode and flips the LEDs, but the
announcement is never passed to `lorawan.send` (the mode flag is set to 1
before `send_specific_message` runs, whose class-C guard then returns
immediately): the list of transmitted payloads is empty, not
["ClassCSwitch"]. -/
theorem C2_counterexample :
    initState.is_class_c = 0 ∧
    (receive_message ⟨true, 0, 12, "ClassCSwitch"⟩ initState).1.is_class_c = 1 ∧
    (receive_message ⟨true, 0, 12, "ClassCSwitch"⟩ initState).2.sends = [] := by
  decide

/-- Claim C2, amended: when the controller in mode A receives the downlink
payload "ClassCSwitch", the mode flag becomes C, the indicators flip (blue
on, green off) and one `CLASS_C` request goes to the stack, but the
"ClassCSwitch" announcement send is suppressed by the class-C guard of
`send_specific_message` (the flag is set before the call), so no payload is
transmitted and no retry is scheduled. -/
theorem C2_class_c_switch_received (env : Env) (s : LoraState)
    (hmode : s.is_class_c = 0) (hret : 0 ≤ env.recv_ret)
    (hmsg : env.recv_data = "ClassCSwitch") :
    (receive_message env s).1.is_class_c = 1 ∧
    (receive_message env s).1.blue_led = true ∧
    (receive_message env s).1.green_led = false ∧
    (receive_message env s).2.classCalls = [DeviceClass.C] ∧
    (receive_message env s).2.sends = [] ∧
    (receive_message env s).2.scheduled = [] := by
  have hnl : ¬env.recv_ret < 0 := not_lt.mpr hret
  simp [receive_message, receivedMsg, switch_to_class_c, switch_to_class_a,
        send_specific_message, Effects.append, Effects.none, hnl, hret, hmsg]

/-- Witness for C2 (amended) at the concrete initial state. -/
theorem C2_witness :
    (receive_message ⟨true, 0, 12, "ClassCSwitch"⟩ initState).1.is_class_c = 1 ∧
    (receive_message ⟨true, 0, 12, "ClassCSwitch"⟩ initState).2.sends = [] :=
  ⟨(C2_class_c_switch_received ⟨true, 0, 12, "ClassCSwitch"⟩ initState
      (by decide) (by decide) rfl).1,
   (C2_class_c_switch_received ⟨true, 0, 12, "ClassCSwitch"⟩ initState
      (by decide) (by decide) rfl).2.2.2.2.1⟩

/-- Counterexample to claim C3 as stated: a tagged send whose stack call
fails with a negative code other than would-block (here -1003, parameter
invalid) still schedules one 3-second retry, although the claim says no
retry is scheduled for that combination. -/
theorem C3_counterexample :
    (-1003 : Int) ≠ LORAWAN_STATUS_WOULD_BLOCK ∧
    (send_specific_message "Hi" ⟨true, -1003, 0, ""⟩ initState).2.scheduled =
      [3000] := by
  decide

/-- Claim C3, amended: the periodic send schedules exactly one 3-second
retry precisely when the stack call returns would-block with duty cycling
enabled and mode A, and otherwise none; the tagged send instead schedules
one retry on every negative return code, plus a second one exactly when
that code is would-block with duty cycling enabled and mode A (two retries
for that single failure). -/
theorem C3_retry_characterization (env : Env) (s : LoraState) (msg : String) :
    (send_message env s).2.scheduled =
      (if s.is_class_c = 0 ∧ env.send_ret = LORAWAN_STATUS_WOULD_BLOCK ∧
          env.duty_cycle_on = true
       then [3000] else []) ∧
    (send_specific_message msg env s).2.scheduled =
      (if s.is_class_c = 0 ∧ env.send_ret < 0 then
        (if env.send_ret = LORAWAN_STATUS_WOULD_BLOCK ∧ env.duty_cycle_on = true
         then [3000, 3000] else [3000])
       else []) := by
  constructor <;>
    · simp only [send_message, send_specific_message, Effects.none,
                 LORAWAN_STATUS_WOULD_BLOCK]
      split_ifs <;> simp_all <;> omega

/-- Counterexample to claim C4 as stated: on CONNECTED with duty cycling
enabled and the mode flag C, no payload reaches `lorawan.send` — the
handler does call `send_specific_message "ClassCInit"`, but that call is
suppressed by its class-C guard, so nothing is transmitted (the claim says
exactly one "ClassCInit" message is). -/
theorem C4_counterexample :
    ({ initState with
        is_class_c := 1
        blue_led := true
        green_led := false } : LoraState).is_class_c = 1 ∧
    (lora_event_handler LorawanEvent.CONNECTED ⟨true, 0, 0, ""⟩
       { initState with
          is_class_c := 1
          blue_led := true
          green_led := false }).2.sends = [] := by
  decide

/-- Claim C4, amended: on CONNECTED with duty cycling enabled, in mode A
exactly one "ClassAInit" payload is passed to `lorawan.send`; in mode C the
handler invokes the tagged send with "ClassCInit" but the class-C guard
suppresses it, so nothing is transmitted and the state is unchanged; with
duty cycling disabled the handler takes no action at all. -/
theorem C4_connected_announcement (env : Env) (s : LoraState) :
    (env.duty_cycle_on = true → s.is_class_c = 0 →
      (lora_event_handler LorawanEvent.CONNECTED env s).2.sends =
        ["ClassAInit"]) ∧
    (env.duty_cycle_on = true → s.is_class_c = 1 →
      lora_event_handler LorawanEvent.CONNECTED env s = (s, Effects.none)) ∧
    (env.duty_cycle_on = false →
      lora_event_handler LorawanEvent.CONNECTED env s = (s, Effects.none)) := by
  refine ⟨fun hd hm => ?_, fun hd hm => ?_, fun hd => ?_⟩
  · simp only [lora_event_handler, hd, if_true, hm]
    simp [send_specific_message, hm]
    split <;> rfl
  · simp [lora_event_handler, send_specific_message, Effects.none, hd, hm]
  · simp [lora_event_handler, Effects.none, hd]

/-- Witness for C4 (amended): in mode A with duty cycling on, CONNECTED
transmits exactly the payload "ClassAInit". -/
theorem C4_witness :
    (lora_event_handler LorawanEvent.CONNECTED ⟨true, 0, 0, ""⟩
       initState).2.sends = ["ClassAInit"] :=
  (C4_connected_announcement ⟨true, 0, 0, ""⟩ initState).1 rfl rfl

/-- Claim C5: whenever the command string read from the receive buffer
(the delivered payload on success, the untouched buffer when the stack had
nothing to read) differs from both "ClassCSwitch" and "ClassASwitch", the
receive-and-dispatch operation leaves the mode flag unchanged. -/
theorem C5_unknown_payload_keeps_mode (env : Env) (s : LoraState)
    (h1 : receivedMsg env s ≠ "ClassCSwitch")
    (h2 : receivedMsg env s ≠ "ClassASwitch") :
    (receive_message env s).1.is_class_c = s.is_class_c := by
  have hmsg : receivedMsg env
      { s with receive_count := (s.receive_count + 1) % 256 } =
      receivedMsg env s := rfl
  simp only [receive_message, hmsg]
  split
  · rfl
  · simp [h1, h2]

/-- Witness for C5: receiving the unrecognized payload "Hello" in the
initial state leaves the mode flag at 0. -/
theorem C5_witness :
    (receive_message ⟨true, 0, 5, "Hello"⟩ initState).1.is_class_c =
      initState.is_class_c :=
  C5_unknown_payload_keeps_mode ⟨true, 0, 5, "Hello"⟩ initState
    (by decide) (by decide)

/-- Claim C6: any initialization-time failure (initialize, retries
configuration, ADR enable) or a connect result other than OK /
connect-in-progress exits with -1, an initialize failure in particular
before the connect call; when everything succeeds, `dispatch_forever` runs
and — since the DISCONNECTED event breaks the dispatch loop — `main`
returns exit status 0. -/
theorem C6_exit_codes (i r a c : Int) :
    (i ≠ LORAWAN_STATUS_OK →
      main_run i r a c = (-1, [StackCall.init]) ∧
      StackCall.connect ∉ (main_run i r a c).2) ∧
    (i = LORAWAN_STATUS_OK → r ≠ LORAWAN_STATUS_OK →
      (main_run i r a c).1 = -1 ∧ StackCall.connect ∉ (main_run i r a c).2) ∧
    (i = LORAWAN_STATUS_OK → r = LORAWAN_STATUS_OK → a ≠ LORAWAN_STATUS_OK →
      (main_run i r a c).1 = -1 ∧ StackCall.connect ∉ (main_run i r a c).2) ∧
    (i = LORAWAN_STATUS_OK → r = LORAWAN_STATUS_OK → a = LORAWAN_STATUS_OK →
      c ≠ LORAWAN_STATUS_OK → c ≠ LORAWAN_STATUS_CONNECT_IN_PROGRESS →
      (main_run i r a c).1 = -1) ∧
    (i = LORAWAN_STATUS_OK → r = LORAWAN_STATUS_OK → a = LORAWAN_STATUS_OK →
      (c = LORAWAN_STATUS_OK ∨ c = LORAWAN_STATUS_CONNECT_IN_PROGRESS) →
      (main_run i r a c).1 = 0) ∧
    (∀ env s,
      (lora_event_handler LorawanEvent.DISCONNECTED env s).2.broke = true) := by
  refine ⟨fun h1 => ?_, fun h1 h2 => ?_, fun h1 h2 h3 => ?_,
          fun h1 h2 h3 h4 h5 => ?_, fun h1 h2 h3 h4 => ?_, fun env s => rfl⟩
  · simp [main_run, h1]
  · simp [main_run, h1, h2]
  · simp [main_run, h1, h2, h3]
  · simp [main_run, h1, h2, h3, h4, h5]
  · simp [main_run, h1, h2, h3, h4]

/-- Witness for C6: an initialize failure (code -1) exits with -1 having
made only the initialize call, so connect was never attempted. -/
theorem C6_witness :
    main_run (-1) 0 0 0 = (-1, [StackCall.init]) ∧
    StackCall.connect ∉ (main_run (-1) 0 0 0).2 :=
  (C6_exit_codes (-1) 0 0 0).1 (by decide)

/-- Claim C7: switching to class C is idempotent on the application state:
a second application (with any stack responses) produces exactly the state
of the first, the mode flag is C after the first application, and the
second application transmits nothing (its announcement send is suppressed
by the class-C guard). -/
theorem C7_switch_to_class_c_idempotent (env env2 : Env) (s : LoraState) :
    (switch_to_class_c env2 (switch_to_class_c env s).1).1 =
      (switch_to_class_c env s).1 ∧
    (switch_to_class_c env s).1.is_class_c = 1 ∧
    (switch_to_class_c env2 (switch_to_class_c env s).1).2.sends = [] := by
  refine ⟨?_, ?_, ?_⟩ <;>
    simp [switch_to_class_c, send_specific_message, Effects.append,
          Effects.none]

/-- Counterexample to claim C8 as stated: `receive_count` is a `uint8_t`,
so an invocation starting from counter value 255 wraps it to 0, which is
not strictly greater than 255. -/
theorem C8_counterexample :
    ({ initState with receive_count := 255 } : LoraState).receive_count = 255 ∧
    (receive_message ⟨true, 0, 5, "Hello"⟩
       { initState with receive_count := 255 }).1.receive_count = 0 := by
  decide

/-- Fields of the state that `send_specific_message` never writes: it
touches `tx_buffer` only. -/
lemma send_specific_message_preserves (msg : String) (env : Env)
    (s : LoraState) :
    (send_specific_message msg env s).1.is_class_c = s.is_class_c ∧
    (send_specific_message msg env s).1.green_led = s.green_led ∧
    (send_specific_message msg env s).1.blue_led = s.blue_led ∧
    (send_specific_message msg env s).1.receive_count = s.receive_count ∧
    (send_specific_message msg env s).1.rx_buffer = s.rx_buffer := by
  simp only [send_specific_message]
  split_ifs <;> simp

/-- Fields of the state that `send_message` never writes: it touches
`tx_buffer` only. -/
lemma send_message_preserves (env : Env) (s : LoraState) :
    (send_message env s).1.is_class_c = s.is_class_c ∧
    (send_message env s).1.green_led = s.green_led ∧
    (send_message env s).1.blue_led = s.blue_led ∧
    (send_message env s).1.receive_count = s.receive_count ∧
    (send_message env s).1.rx_buffer = s.rx_buffer := by
  simp only [send_message]
  split_ifs <;> simp

/-- After `switch_to_class_c` the mode flag is 1, the blue LED is on, the
green LED is off, and the receive counter is unchanged. -/
lemma switch_to_class_c_fields (env : Env) (s : LoraState) :
    (switch_to_class_c env s).1.is_class_c = 1 ∧
    (switch_to_class_c env s).1.blue_led = true ∧
    (switch_to_class_c env s).1.green_led = false ∧
    (switch_to_class_c env s).1.receive_count = s.receive_count := by
  have h := send_specific_message_preserves "ClassCSwitch" env
    { s with blue_led := true, green_led := false, is_class_c := 1 }
  simp only [switch_to_class_c]
  exact ⟨h.1, h.2.2.1, h.2.1, h.2.2.2.1⟩

/-- After `switch_to_class_a` the mode flag is 0, the blue LED is off, the
green LED is on, and the receive counter is unchanged. -/
lemma switch_to_class_a_fields (env : Env) (s : LoraState) :
    (switch_to_class_a env s).1.is_class_c = 0 ∧
    (switch_to_class_a env s).1.blue_led = false ∧
    (switch_to_class_a env s).1.green_led = true ∧
    (switch_to_class_a env s).1.receive_count = s.receive_count := by
  have h := send_specific_message_preserves "ClassAInit" env
    { s with blue_led := false, green_led := true, is_class_c := 0 }
  simp only [switch_to_class_a]
  exact ⟨h.1, h.2.2.1, h.2.1, h.2.2.2.1⟩

/-- Claim C8, amended: every invocation of the receive-and-dispatch
operation sets the (naturally non-negative) counter to its successor
modulo 256; the new value is strictly greater than the old one exactly as
long as the old value is below 255, and at 255 the `uint8_t` wraps to 0. -/
theorem C8_receive_count_mod256 (env : Env) (s : LoraState) :
    (receive_message env s).1.receive_count = (s.receive_count + 1) % 256 ∧
    (s.receive_count < 255 →
      s.receive_count < (receive_message env s).1.receive_count) := by
  have hcount : (receive_message env s).1.receive_count =
      (s.receive_count + 1) % 256 := by
    simp only [receive_message]
    split
    · rfl
    · split <;> split <;>
        simp [switch_to_class_c_fields, switch_to_class_a_fields,
              (switch_to_class_a_fields _ _).2.2.2,
              (switch_to_class_c_fields _ _).2.2.2]
  refine ⟨hcount, fun hlt => ?_⟩
  rw [hcount]
  omega

/-- Witness for C8 (amended): from the initial state (counter 0 < 255) one
receive raises the counter. -/
theorem C8_witness :
    initState.receive_count <
      (receive_message ⟨true, 0, 5, "Hello"⟩ initState).1.receive_count :=
  (C8_receive_count_mod256 ⟨true, 0, 5, "Hello"⟩ initState).2 (by decide)

/-- Claim C9: when the tagged send's stack call returns a negative code
(the mode-A hypothesis records that the call actually happened, i.e. was
not suppressed), one 3-second `send_message` retry is always scheduled,
and exactly when that code is would-block with duty cycling enabled a
second one is scheduled as well — two retries for that single failure. -/
theorem C9_tagged_send_double_retry (msg : String) (env : Env)
    (s : LoraState) (hmode : s.is_class_c = 0) (hneg : env.send_ret < 0) :
    (send_specific_message msg env s).2.scheduled =
      (if env.send_ret = LORAWAN_STATUS_WOULD_BLOCK ∧ env.duty_cycle_on = true
       then [3000, 3000] else [3000]) := by
  simp only [send_specific_message, hmode, hneg]
  split_ifs <;> simp_all

/-- Witness for C9: a would-block failure with duty cycling on in mode A
enqueues two 3-second retries. -/
theorem C9_witness :
    (send_specific_message "Hi" ⟨true, -1001, 0, ""⟩ initState).2.scheduled =
      [3000, 3000] := by
  have h := C9_tagged_send_double_retry "Hi" ⟨true, -1001, 0, ""⟩ initState
    rfl (by decide)
  simpa [LORAWAN_STATUS_WOULD_BLOCK] using h

/-- `switch_to_class_c` always leaves the LEDs agreeing with the mode. -/
lemma ledsOk_switch_to_class_c (env : Env) (s : LoraState) :
    ledsOk (switch_to_class_c env s).1 := by
  obtain ⟨h1, h2, h3, _⟩ := switch_to_class_c_fields env s
  simp [ledsOk, h1, h2, h3]

/-- `switch_to_class_a` always leaves the LEDs agreeing with the mode. -/
lemma ledsOk_switch_to_class_a (env : Env) (s : LoraState) :
    ledsOk (switch_to_class_a env s).1 := by
  obtain ⟨h1, h2, h3, _⟩ := switch_to_class_a_fields env s
  simp [ledsOk, h1, h2, h3]

/-- `send_message` preserves the LED/mode correspondence. -/
lemma ledsOk_send_message (env : Env) (s : LoraState) (h : ledsOk s) :
    ledsOk (send_message env s).1 := by
  obtain ⟨h1, h2, h3, _, _⟩ := send_message_preserves env s
  simpa [ledsOk, h1, h2, h3] using h

/-- `send_specific_message` preserves the LED/mode correspondence. -/
lemma ledsOk_send_specific_message (msg : String) (env : Env) (s : LoraState)
    (h : ledsOk s) : ledsOk (send_specific_message msg env s).1 := by
  obtain ⟨h1, h2, h3, _, _⟩ := send_specific_message_preserves msg env s
  simpa [ledsOk, h1, h2, h3] using h

/-- `receive_message` preserves the LED/mode correspondence. -/
lemma ledsOk_receive_message (env : Env) (s : LoraState) (h : ledsOk s) :
    ledsOk (receive_message env s).1 := by
  simp only [receive_message]
  split
  · exact h
  · split <;> (try split) <;>
      simp_all [ledsOk,
        (switch_to_class_c_fields _ _).1, (switch_to_class_c_fields _ _).2.1,
        (switch_to_class_c_fields _ _).2.2.1,
        (switch_to_class_a_fields _ _).1, (switch_to_class_a_fields _ _).2.1,
        (switch_to_class_a_fields _ _).2.2.1]

/-- Claim C10: the LED/mode correspondence (blue on iff mode C, green on
iff mode A) holds after initialization and is preserved by every operation
of the controller: both send operations, both mode switches, the
receive-and-dispatch operation, and the event handler on every event. -/
theorem C10_led_mode_invariant :
    ledsOk initState ∧
    (∀ env s msg, ledsOk s →
      ledsOk (send_message env s).1 ∧
      ledsOk (send_specific_message msg env s).1 ∧
      ledsOk (switch_to_class_c env s).1 ∧
      ledsOk (switch_to_class_a env s).1 ∧
      ledsOk (receive_message env s).1) ∧
    (∀ ev env s, ledsOk s → ledsOk (lora_event_handler ev env s).1) := by
  refine ⟨by simp [ledsOk, initState], fun env s msg hs => ?_, fun ev env s hs => ?_⟩
  · exact ⟨ledsOk_send_message env s hs,
           ledsOk_send_specific_message msg env s hs,
           ledsOk_switch_to_class_c env s,
           ledsOk_switch_to_class_a env s,
           ledsOk_receive_message env s hs⟩
  · cases ev <;> simp only [lora_event_handler] <;> try exact hs
    · split
      · split
        · exact ledsOk_send_specific_message _ env s hs
        · exact ledsOk_send_specific_message _ env s hs
      · exact hs
    · split
      · exact hs
      · split
        · exact ledsOk_send_message env s hs
        · exact hs
    · exact ledsOk_receive_message env s hs

/-- Witness for C10: the correspondence holds concretely after switching
the freshly initialized controller to class C. -/
theorem C10_witness :
    ledsOk (switch_to_class_c ⟨true, 0, 0, ""⟩ initState).1 :=
  (C10_led_mode_invariant.2.1 ⟨true, 0, 0, ""⟩ initState "x"
    C10_led_mode_invariant.1).2.2.1
